import Mathlib

/-!
Verification development for the nine-stage eBook generation pipeline
(`generate_ebook.py` together with the mock client of `llm_client.py`).

The Python code is shallowly embedded: strings are Lean `String`s
(lists of unicode scalars), Python dictionaries holding configuration
are total functions `String → Option ConfigVal`, Python exceptions are
`Except Unit`, and the text-generation backend is an abstract function
from a prompt to a generated text or a raised error.  The YAML library
(`yaml.safe_load`), an external collaborator, is a parameter of the
configuration builder.  File persistence is modelled by passing the
persisted string directly: the pipeline writes each stage output and
stage 4 re-reads the stage-2 artifact, which holds exactly the string
that was written.
-/

set_option maxRecDepth 20000

/-- Whitespace per Python's `str.strip` / `re` `\s` class: ASCII whitespace,
the C1 control separators, and the common Unicode space characters. -/
def pyIsSpace (c : Char) : Bool :=
  c = ' ' || c = '\t' || c = '\n' || c = '\r' || c = '\x0b' || c = '\x0c' ||
  c = '\x1c' || c = '\x1d' || c = '\x1e' || c = '\x1f' || c = '\x85' || c = '\xa0' ||
  c = ' ' || (' ' ≤ c && c ≤ ' ') || c = ' ' || c = ' ' ||
  c = ' ' || c = ' ' || c = '　'

/-- Line boundaries recognised by Python's `str.splitlines`
(besides the two-character sequence `\r\n`). -/
def pyIsLineBreak (c : Char) : Bool :=
  c = '\n' || c = '\r' || c = '\x0b' || c = '\x0c' ||
  c = '\x1c' || c = '\x1d' || c = '\x1e' || c = '\x85' || c = ' ' || c = ' '

/-- `str.strip()` on a character list: drop leading and trailing whitespace. -/
def pyStripChars (l : List Char) : List Char :=
  ((l.dropWhile pyIsSpace).reverse.dropWhile pyIsSpace).reverse

/-- Python `s.strip()`. -/
def pyStrip (s : String) : String := ⟨pyStripChars s.data⟩

/-- Python `s.rstrip('.')`: drop all trailing period characters. -/
def rstripDot (s : String) : String := ⟨(s.data.reverse.dropWhile (· = '.')).reverse⟩

/-- Python `s.lower()` (ASCII case mapping). -/
def pyLower (s : String) : String := ⟨s.data.map Char.toLower⟩

/-- Worker for `pyTitle`: a letter is uppercased when the previous character
was not a letter, lowercased otherwise. -/
def pyTitleAux : Bool → List Char → List Char
  | _, [] => []
  | prevAlpha, c :: rest =>
    if c.isAlpha then
      (if prevAlpha then c.toLower else c.toUpper) :: pyTitleAux true rest
    else
      c :: pyTitleAux false rest

/-- Python `s.title()` (ASCII case mapping). -/
def pyTitle (s : String) : String := ⟨pyTitleAux false s.data⟩

/-- Worker for `pySplitlines`; the first argument accumulates the current
line in reverse.  `\r\n` counts as a single boundary; a final line without
a terminator is kept, a trailing terminator adds no empty line. -/
def pySplitlinesAux : List Char → List Char → List (List Char)
  | cur, [] => if cur.isEmpty then [] else [cur.reverse]
  | cur, '\r' :: '\n' :: rest => cur.reverse :: pySplitlinesAux [] rest
  | cur, c :: rest =>
    if pyIsLineBreak c then cur.reverse :: pySplitlinesAux [] rest
    else pySplitlinesAux (c :: cur) rest

/-- Python `s.splitlines()`. -/
def pySplitlines (s : String) : List String :=
  (pySplitlinesAux [] s.data).map fun l => ⟨l⟩

/-- Worker for `splitNl`. -/
def splitNlAux : List Char → List Char → List String
  | cur, [] => [⟨cur.reverse⟩]
  | cur, c :: rest =>
    if c = '\n' then (⟨cur.reverse⟩ : String) :: splitNlAux [] rest
    else splitNlAux (c :: cur) rest

/-- Python `s.split('\n')`: always at least one part, empty parts kept. -/
def splitNl (s : String) : List String := splitNlAux [] s.data

/-- Worker for `pySplit`. -/
def pySplitAux : List Char → List Char → List (List Char)
  | cur, [] => if cur.isEmpty then [] else [cur.reverse]
  | cur, c :: rest =>
    if pyIsSpace c then
      if cur.isEmpty then pySplitAux [] rest else cur.reverse :: pySplitAux [] rest
    else pySplitAux (c :: cur) rest

/-- Python `s.split()` with no argument: tokens separated by whitespace runs,
no empty tokens. -/
def pySplit (s : String) : List String :=
  (pySplitAux [] s.data).map fun l => ⟨l⟩

/-- `leadsL pre l` is true when `pre` is an initial segment of `l`. -/
def leadsL : List Char → List Char → Bool
  | [], _ => true
  | _ :: _, [] => false
  | a :: as, b :: bs => a = b && leadsL as bs

/-- `subOfL needle hay`: does `needle` occur contiguously inside `hay`? -/
def subOfL (needle : List Char) : List Char → Bool
  | [] => needle.isEmpty
  | c :: rest => leadsL needle (c :: rest) || subOfL needle rest

/-- Python `needle in hay` on strings. -/
def strContains (hay needle : String) : Bool := subOfL needle.data hay.data

/-- `strStarts s pre`: does `s` start with `pre`? -/
def strStarts (s pre : String) : Bool := leadsL pre.data s.data

/-- Characters after the first occurrence of `sep` (everything when `sep`
does not occur). -/
def afterFirstL (sep : List Char) : List Char → List Char
  | [] => []
  | c :: rest =>
    if leadsL sep (c :: rest) then (c :: rest).drop sep.length
    else afterFirstL sep rest

/-- Characters before the first occurrence of `sep` (everything when `sep`
does not occur). -/
def beforeFirstL (sep : List Char) : List Char → List Char
  | [] => []
  | c :: rest =>
    if leadsL sep (c :: rest) then []
    else c :: beforeFirstL sep rest

/-- Python `s.split(sep)[1]`, assuming `sep` occurs in `s`: the text strictly
between the first and second occurrences of `sep` (up to the end when there
is no second occurrence). -/
def segAfterFirst (sep s : String) : String :=
  ⟨beforeFirstL sep.data (afterFirstL sep.data s.data)⟩

/-- Python `s.split(sep)[0]`: the text before the first occurrence of `sep`. -/
def segBeforeFirst (sep s : String) : String := ⟨beforeFirstL sep.data s.data⟩

/-- Python `s[:n]`. -/
def takeStr (n : Nat) (s : String) : String := ⟨s.data.take n⟩

/-- Python `sep.join(parts)`. -/
def joinSep (sep : String) : List String → String
  | [] => ""
  | [s] => s
  | s :: t :: rest => s ++ sep ++ joinSep sep (t :: rest)

/-- Concatenation of a list of strings (a sequence of file writes). -/
def joinAll : List String → String
  | [] => ""
  | s :: rest => s ++ joinAll rest

/-- Python `t in l` for a list of strings (equality-based membership test). -/
def strIn (t : String) : List String → Bool
  | [] => false
  | u :: us => if t = u then true else strIn t us

/-! ## Heading extractor (`extract_chapter_titles`, generate_ebook.py lines 482-506) -/

/-- Separator class `[–-]` of the chapter pattern: hyphen or en-dash
(em-dashes have already been normalised to en-dashes). -/
def isDash (c : Char) : Bool := c = '–' || c = '-'

/-- Bullet marker class `[-*]`. -/
def isBullet (c : Char) : Bool := c = '-' || c = '*'

/-- Python `line.replace('—', '–')`: normalise em-dashes to en-dashes. -/
def normDash (s : String) : String :=
  ⟨s.data.map fun c => if c = '—' then '–' else c⟩

/-- Does the list start with a whitespace character? -/
def headIsSpace : List Char → Bool
  | c :: _ => pyIsSpace c
  | [] => false

/-- Does the list start with an ASCII digit? -/
def headIsDigit : List Char → Bool
  | c :: _ => c.isDigit
  | [] => false

/-- The optional leading marker `(?:#{2,6}\s+|[-*]\s+)?`: strip a run of two
to six `#` followed by whitespace, else a bullet `-`/`*` followed by
whitespace, else strip nothing.  When a marker is present but the rest of
the pattern fails, the regex backtracks to the empty alternative, which then
fails at the literal `Chapter` (the first character is `#`, `-` or `*`), so
committing to the marker loses no matches. -/
def dropMarker (cs : List Char) : List Char :=
  let hashes := cs.takeWhile (· = '#')
  let afterH := cs.dropWhile (· = '#')
  if 2 ≤ hashes.length && hashes.length ≤ 6 && headIsSpace afterH then
    afterH.dropWhile pyIsSpace
  else
    match cs with
    | b :: c2 :: rest =>
      if isBullet b && pyIsSpace c2 then (c2 :: rest).dropWhile pyIsSpace else cs
    | _ => cs

/-- `re.match(r'^(?:#{2,6}\s+|[-*]\s+)?Chapter\s+(\d+)\s*[–-]\s*(.+)$', norm,
re.IGNORECASE)`, returning the second capture group (the title text).  The
quantifiers are effectively deterministic except for the final `\s*(.+)$`,
where the greedy `\s*` yields back one character when `(.+)` would otherwise
be left empty. -/
def chapterMatch (s : String) : Option String :=
  let cs := dropMarker s.data
  if (cs.take 7).map Char.toLower = "chapter".data then
    let r0 := cs.drop 7
    if headIsSpace r0 then
      let r1 := r0.dropWhile pyIsSpace
      if headIsDigit r1 then
        let r2 := (r1.dropWhile Char.isDigit).dropWhile pyIsSpace
        match r2 with
        | sep :: rest =>
          if isDash sep then
            match rest with
            | [] => none
            | _ :: _ =>
              let k := min (rest.takeWhile pyIsSpace).length (rest.length - 1)
              some ⟨rest.drop k⟩
          else none
        | [] => none
      else none
    else none
  else none

/-- `re.match(r'^\d+\.\d+', title)`: the title starts with
digits, a period, and a further digit. -/
def startsSubNum (s : String) : Bool :=
  let ds := s.data.takeWhile Char.isDigit
  let r := s.data.dropWhile Char.isDigit
  !ds.isEmpty &&
    (match r with
     | '.' :: d :: _ => d.isDigit
     | _ => false)

/-- One iteration of the extractor loop: the cleaned title contributed by a
raw outline line, or `none` when the line is blank, fails the chapter
pattern, looks like sub-numbering, or cleans to the empty string. -/
def lineTitle (raw : String) : Option String :=
  let line := pyStrip raw
  if line = "" then none
  else
    match chapterMatch (normDash line) with
    | none => none
    | some g2 =>
      let title := pyStrip (rstripDot (pyStrip g2))
      if startsSubNum title then none
      else if title ≠ "" then some title else none

/-- The extractor loop over the outline's lines; `titles` accumulates the
titles collected so far and is only extended with titles not already
present. -/
def extractAux (titles : List String) : List String → List String
  | [] => titles
  | l :: ls =>
    match lineTitle l with
    | some t => if strIn t titles then extractAux titles ls else extractAux (titles ++ [t]) ls
    | none => extractAux titles ls

/-- `extract_chapter_titles(outline)`: ordered, de-duplicated top-level
chapter titles of a free-form outline. -/
def extract_chapter_titles (outline : String) : List String :=
  extractAux [] (pySplitlines outline)

/-- First-occurrence de-duplication with an explicit seen-set accumulator:
keeps each string the first time it appears, skips later repetitions. -/
def dedupSeen (seen : List String) : List String → List String
  | [] => []
  | t :: ts =>
    if strIn t seen then dedupSeen seen ts
    else t :: dedupSeen (seen ++ [t]) ts

/-! ## Configuration model -/

/-- A configuration value: the scalars the program stores in its
configuration dictionary (strings and integers). -/
inductive ConfigVal where
  | str (s : String)
  | int (n : Int)
deriving DecidableEq, Repr

/-- A configuration dictionary: a total map from key to optional value. -/
def Config : Type := String → Option ConfigVal

/-- Dictionary assignment `config[k] = v`. -/
def setKey (c : Config) (k : String) (v : ConfigVal) : Config :=
  fun q => if q = k then some v else c q

/-- The empty dictionary. -/
def emptyConfig : Config := fun _ => none

/-- How an f-string renders a configuration value. -/
def ConfigVal.render : ConfigVal → String
  | .str s => s
  | .int n => toString n

/-- Python truthiness of a configuration value: non-empty string or
non-zero integer. -/
def ConfigVal.truthy : ConfigVal → Bool
  | .str s => s ≠ ""
  | .int n => n ≠ 0

/-- `config[k]` rendered by an f-string; `KeyError` when absent. -/
def cfgRender (c : Config) (k : String) : Except Unit String :=
  match c k with
  | some v => Except.ok v.render
  | none => Except.error ()

/-- `config[k]` used as a string (e.g. for `.title()` or concatenation);
`KeyError` when absent, `AttributeError`/`TypeError` when not a string. -/
def cfgStr (c : Config) (k : String) : Except Unit String :=
  match c k with
  | some (.str s) => Except.ok s
  | _ => Except.error ()

/-- A text-generation backend: `generate(prompt)` returns the generated
text or raises.  `stream_generate` returns the same full text (the default
implementation calls `generate` and delivers the whole text as one
fragment; the fragment sink only echoes to the terminal). -/
def Backend : Type := String → Except Unit String

/-! ## Configuration builder (`generate_config_from_topic`, lines 92-172,
`generate_default_config`, lines 210-228) -/

/-- The result of `yaml.safe_load`: a mapping, or some non-mapping value.
The YAML parser is an external library and is passed in as a parameter;
a raised parse error is `Except.error`. -/
inductive YamlVal where
  | dict (c : Config)
  | other

/-- The heuristic default configuration dictionary, given the topic, the
computed main keyword and the beginner flag. -/
def mkDefaultConfig (topic kw : String) (is_beginner : Bool) : Config := fun k =>
  if k = "topic" then some (.str topic)
  else if k = "main_keyword" then some (.str kw)
  else if k = "theme" then
    some (.str (if is_beginner then "beginner-friendly transformation"
                else "science-backed sustainable change"))
  else if k = "target_audience" then
    some (.str "busy professionals aged 30-50 seeking practical solutions")
  else if k = "tone" then some (.str "empowering")
  else if k = "mood" then some (.str "motivational")
  else if k = "distribution_platform" then some (.str "Amazon KDP")
  else if k = "primary_format" then some (.str "Kindle")
  else if k = "chapter_length" then some (.int 2000)
  else if k = "interactive_elements_included" then
    some (.str "Printable Tracker, Progress Checklist, Habit Worksheet")
  else none

/-- `generate_default_config(topic)`.  The fitness/wellness keyword scans
are computed but unused by the returned dictionary (only the beginner flag
reaches it).  The main keyword is `topic.split()[0]` when the topic is
truthy, which raises `IndexError` when a non-empty topic consists solely
of whitespace. -/
def generate_default_config (topic : String) : Except Unit Config :=
  let lower := pyLower topic
  let _is_fitness := [("fitness" : String), "weight", "workout", "exercise",
    "muscle", "diet", "nutrition"].any fun w => strContains lower w
  let _is_wellness := [("wellness" : String), "health", "mental", "stress",
    "sleep", "mindfulness"].any fun w => strContains lower w
  let is_beginner := strContains lower "beginner" || strContains lower "start"
  match (if topic ≠ "" then
           (match pySplit topic with
            | [] => Except.error ()
            | w :: _ => Except.ok w)
         else Except.ok "wellness" : Except Unit String) with
  | Except.error e => Except.error e
  | Except.ok kw => Except.ok (mkDefaultConfig topic kw is_beginner)

/-- The meta-prompt sent to the backend by the configuration builder. -/
def configPrompt (topic : String) : String :=
  "You are an expert eBook strategist and market analyst. Your task is to analyze a topic and generate optimal configuration parameters for an automated eBook generation system.\n\nGiven Topic: " ++ topic ++
  "\n\nAnalyze this topic and generate the following parameters in valid YAML format. Be strategic, market-aware, and ensure all parameters work cohesively together.\n\nRequired Output Format (YAML only, no explanations):\n\n```yaml\ntopic: \"[refined topic optimized for market demand]\"\nmain_keyword: \"[primary SEO keyword with 12M+ search volume]\"\ntheme: \"[overarching theme/approach]\"\ntarget_audience: \"[specific demographic and psychographic profile]\"\ntone: \"[empowering/conversational/authoritative/inspiring/supportive/motivational]\"\nmood: \"[motivational/calming/energetic/supportive/uplifting/confident]\"\ndistribution_platform: \"[Amazon KDP/Gumroad/Etsy/Self-hosted]\"\nprimary_format: \"[PDF/EPUB/Kindle/Interactive PDF]\"\nchapter_length: [1500-2500 word count as integer]\ninteractive_elements_included: \"[comma-separated list of: Printable Tracker, Guided Journal Page, Progress Checklist, Habit Worksheet, Milestone Calendar]\"\n```\n\nInstructions:\n1. Refine the topic to be more market-focused and specific\n2. Choose a main_keyword with proven search demand (12M+ results)\n3. Select a theme that resonates with target audience pain points\n4. Define target_audience with specific age range, lifestyle, and challenges\n5. Choose tone and mood that match the audience's emotional needs\n6. Recommend the best distribution_platform based on topic and audience\n7. Select primary_format compatible with chosen platform\n8. Set chapter_length appropriate for topic depth (recommend 2000 for balance)\n9. Choose 2-3 interactive_elements that enhance engagement\n\nOutput only the YAML block. No additional commentary."

/-- Extraction of the fenced configuration block from the backend reply:
prefer the text between a `yaml`-tagged fence pair, else between the first
plain fence pair, else the whole reply (Python lines 145-148). -/
def extractYamlBlock (s : String) : String :=
  if strContains s "```yaml" then pyStrip (segAfterFirst "```yaml" s)
  else if strContains s "```" then pyStrip (segAfterFirst "```" s)
  else s

/-- The unconditional post-processing of the builder: force
`min_search_results` and `num_chapters` (the `isinstance` re-check on the
Python side is vacuous at this point, both branches of the try/except have
produced a dictionary). -/
def postProcessConfig (c : Config) : Config :=
  setKey (setKey c "min_search_results" (.int 12000000)) "num_chapters" (.int 5)

/-- `generate_config_from_topic(topic, llm_client)`.  The backend's
`generate` call sits outside the try/except, so its failure propagates;
only failures of fence extraction / YAML parsing / the mapping check are
caught and replaced by the heuristic defaults. -/
def generate_config_from_topic (safe_load : String → Except Unit YamlVal)
    (topic : String) (llm_client : Option Backend) : Except Unit Config :=
  match llm_client with
  | some client =>
    match client (configPrompt topic) with
    | Except.error e => Except.error e
    | Except.ok config_yaml =>
      match (match safe_load (extractYamlBlock config_yaml) with
             | Except.ok (YamlVal.dict c) => Except.ok c
             | _ => generate_default_config topic) with
      | Except.error e => Except.error e
      | Except.ok config => Except.ok (postProcessConfig config)
  | none =>
    match generate_default_config topic with
    | Except.error e => Except.error e
    | Except.ok config => Except.ok (postProcessConfig config)

/-! ## Template applier (`apply_template_defaults`, lines 175-207) -/

/-- `apply_template_defaults(config, template)`: overwrite the seven
structural keys for a known template name, return the configuration
unchanged for an unknown one. -/
def apply_template_defaults (config : Config) (template : String) : Config :=
  if template = "standard" then
    let c := setKey config "intro_min_words" (.int 600)
    let c := setKey c "intro_max_words" (.int 900)
    let c := setKey c "num_chapters" (.int 5)
    let c := setKey c "chapter_length" (.int 1200)
    let c := setKey c "final_min_words" (.int 600)
    let c := setKey c "final_max_words" (.int 900)
    let c := setKey c "review_min_words" (.int 300)
    setKey c "review_max_words" (.int 500)
  else if template = "quickstart" then
    let c := setKey config "intro_min_words" (.int 300)
    let c := setKey c "intro_max_words" (.int 500)
    let c := setKey c "num_chapters" (.int 3)
    let c := setKey c "chapter_length" (.int 800)
    let c := setKey c "final_min_words" (.int 300)
    let c := setKey c "final_max_words" (.int 500)
    let c := setKey c "review_min_words" (.int 150)
    setKey c "review_max_words" (.int 250)
  else if template = "deepdive" then
    let c := setKey config "intro_min_words" (.int 800)
    let c := setKey c "intro_max_words" (.int 1200)
    let c := setKey c "num_chapters" (.int 8)
    let c := setKey c "chapter_length" (.int 2000)
    let c := setKey c "final_min_words" (.int 800)
    let c := setKey c "final_max_words" (.int 1200)
    let c := setKey c "review_min_words" (.int 400)
    setKey c "review_max_words" (.int 700)
  else config

/-! ## Mock client (`MockClient.generate`, llm_client.py lines 138-220) -/

/-- The fixed five-line query reply of the mock client. -/
def mockSeoText : String :=
  "weight loss\nweight loss tips\nhow to lose weight\nweight loss diet\nweight loss for beginners"

/-- The fixed outline reply of the mock client. -/
def mockOutlineText : String :=
  "# Transform Your Body: The Science of Sustainable Weight Loss\n\n## Core Transformation Summary\nThis book guides busy professionals through evidence-based weight loss strategies that fit into hectic schedules. You'll discover sustainable approaches that prioritize health over quick fixes, combining nutrition science with behavioral psychology.\n\n## Chapters & Goals\n\nChapter 1: Understanding Your Metabolism\nGoal: Learn how your body processes food and burns calories.\n\nChapter 2: Nutrition Fundamentals\nGoal: Master the basics of macronutrients and meal planning.\n\nChapter 3: Exercise Essentials\nGoal: Design a workout routine that fits your lifestyle.\n\nChapter 4: Building Lasting Habits\nGoal: Create sustainable behaviors for long-term success.\n\nChapter 5: Overcoming Plateaus\nGoal: Navigate challenges and maintain momentum.\n\nFinal Thoughts\nGoal: Embrace your transformation journey with confidence and knowledge."

/-- The fixed table-of-contents reply of the mock client. -/
def mockTocText : String :=
  "# Table of Contents\n\nChapter 1: Metabolic Mastery\nUnlock the science of how your body burns energy\n\nChapter 2: Nutrition Blueprint\nBuild a sustainable eating plan for life\n\nChapter 3: Movement Matters\nFind exercises you'll actually enjoy\n\nChapter 4: Habit Formation\nTurn intentions into automatic behaviors\n\nChapter 5: Plateau Breakthrough\nPush through barriers and stay consistent\n\nFinal Thoughts\nYour journey starts now"

/-- The YAML reply of the mock client's configuration branch.  The caller
passes a topic that is either the stripped non-empty extraction result or
the default `"wellness"`, so `topic.split()[0]` cannot fail there; the
`headD` default is unreachable. -/
def mockYamlReply (topic : String) : String :=
  "```yaml\ntopic: \"" ++ topic ++
  "\"\nmain_keyword: \"" ++ (if topic ≠ "" then (pySplit topic).headD "" else "wellness") ++
  "\"\ntheme: \"science-backed transformation\"\ntarget_audience: \"busy professionals aged 30-50\"\ntone: \"empowering\"\nmood: \"motivational\"\ndistribution_platform: \"Amazon KDP\"\nprimary_format: \"Kindle\"\nchapter_length: 2000\ninteractive_elements_included: \"Printable Tracker, Progress Checklist, Habit Worksheet\"\n```"

/-- `MockClient.generate(prompt)`: branch on substrings of the prompt.
Total — the mock never raises. -/
def mockGenerate (prompt : String) : String :=
  if strContains (pyLower prompt) "configuration" || strContains (pyLower prompt) "strategist"
      || strContains prompt "Given Topic:" then
    let topic :=
      if strContains prompt "Given Topic:" then
        pyStrip (segBeforeFirst "\n" (segAfterFirst "Given Topic:" prompt))
      else "wellness"
    mockYamlReply topic
  else if strContains prompt "SEO" || strContains (pyLower prompt) "queries" then
    mockSeoText
  else if strContains (pyLower prompt) "outline" || strContains prompt "eBook" then
    mockOutlineText
  else if strContains prompt "Table of Contents" then
    mockTocText
  else
    "Mock response for: " ++ takeStr 100 prompt ++ "..."

/-- The mock client as a backend (`create_llm_client(provider='mock')`). -/
def mockBackend : Backend := fun prompt => Except.ok (mockGenerate prompt)

/-! ## Stage functions (generate_ebook.py lines 410-620) -/

/-- The stage-1 prompt, an f-string over six configuration reads
(in template order). -/
def seoPromptText (topic tone mood theme kw aud : String) : String :=
  "You are an elite SEO strategist and trend analyst specializing in high-demand, commercially viable topics within the health, wellness, and fitness niche. Your primary function is to generate short, realistic, and high-volume search queries that reflect exactly what users are actively searching for on platforms like Google, YouTube, and Reddit in 2025.\n\n🎯 Rules for Query Generation:\n• Output exactly one natural-language query per line.\n• Queries must be concise, containing 1 to 4 keywords only.\n• Avoid niche, long-tail, or overly specific terms.\n• Do not include special characters, dates, or brand names.\n• Ensure each query will reliably yield a minimum of 12 million Google search results (total_results > 12M).\n• Prioritize topics with broad appeal and clear informational or commercial intent ideal for eBooks, courses, or video content creation.\n• Output queries exactly as users would type them into search bars (no explanations or additional formatting).\n\nRespond only with finalized search queries, clearly separated by new lines.\n\nYour task is to provide exactly 5 high-demand, natural-language search queries suitable for scraping and content ideation within the following scope. Each query must be phrased exactly as users would naturally type it and must adhere to all rules defined above.\n\nInput Parameters:\n● Topic: " ++ topic ++
  "\n● Tone: " ++ tone ++
  "\n● Mood: " ++ mood ++
  "\n● Theme: " ++ theme ++
  "\n● Main Keyword: " ++ kw ++
  "\n● Target Audience: " ++ aud ++
  "\n\nList only the 5 queries clearly, each separated by a new line, without explanations or extra text."

/-- The stage-1 prompt from the configuration; built before the backend
check, so a missing key raises with or without a backend. -/
def stage_1_prompt (config : Config) : Except Unit String :=
  match cfgRender config "topic" with
  | Except.error e => Except.error e
  | Except.ok topic =>
  match cfgRender config "tone" with
  | Except.error e => Except.error e
  | Except.ok tone =>
  match cfgRender config "mood" with
  | Except.error e => Except.error e
  | Except.ok mood =>
  match cfgRender config "theme" with
  | Except.error e => Except.error e
  | Except.ok theme =>
  match cfgRender config "main_keyword" with
  | Except.error e => Except.error e
  | Except.ok kw =>
  match cfgRender config "target_audience" with
  | Except.error e => Except.error e
  | Except.ok aud => Except.ok (seoPromptText topic tone mood theme kw aud)

/-- The list comprehension
`[q.strip() for q in response.strip().split('\n') if q.strip()]`. -/
def stage1Clean (response : String) : List String :=
  ((splitNl (pyStrip response)).map pyStrip).filter fun q => q ≠ ""

/-- `stage_1_seo_queries(config, llm_client)`: with a backend, the cleaned
reply lines truncated to at most five; without one, five templated queries
from `main_keyword` (read as a string: a non-string value would make the
Python run fail at the `'\n'.join` in `execute_pipeline`, modelled here as
the stage raising). -/
def stage_1_seo_queries (config : Config) (llm_client : Option Backend) :
    Except Unit (List String) :=
  match stage_1_prompt config with
  | Except.error e => Except.error e
  | Except.ok prompt =>
    match llm_client with
    | some client =>
      match client prompt with
      | Except.error e => Except.error e
      | Except.ok response => Except.ok ((stage1Clean response).take 5)
    | none =>
      match cfgStr config "main_keyword" with
      | Except.error e => Except.error e
      | Except.ok kw =>
        Except.ok [kw, kw ++ " guide", kw ++ " tips", "how to " ++ kw,
                   kw ++ " for beginners"]

/-- `stage_2_outline(config, queries, llm_client)`: one streamed backend
call, or the fixed fallback skeleton with five placeholder chapter
bullets. -/
def stage_2_outline (config : Config) (_queries : List String)
    (llm_client : Option Backend) : Except Unit String :=
  match llm_client with
  | some client =>
    match cfgRender config "topic" with
    | Except.error e => Except.error e
    | Except.ok t => client ("Generate eBook outline for: " ++ t)
  | none =>
    match cfgStr config "topic" with
    | Except.error e => Except.error e
    | Except.ok topic =>
      Except.ok ("# " ++ pyTitle topic ++
        "\n\n## Outline\n\n- Chapter 1\n- Chapter 2\n- Chapter 3\n- Chapter 4\n- Chapter 5")

/-- The numbered table-of-contents lines `f"{i}. {title}"`. -/
def tocNumbered (i : Nat) : List String → List String
  | [] => []
  | t :: ts => (toString i ++ ". " ++ t) :: tocNumbered (i + 1) ts

/-- `stage_3_toc(outline, llm_client)`: pure derivation from the heading
extractor; a fixed placeholder when no titles are found. -/
def stage_3_toc (outline : String) (_llm_client : Option Backend) : String :=
  let titles := extract_chapter_titles outline
  if titles.isEmpty then "# Table of Contents\n\n(Outline parsing found no chapters)\n"
  else joinSep "\n" ("# Table of Contents" :: "" :: tocNumbered 1 titles) ++ "\n"

/-- The loop body of stage 4 over the derived titles, threading the
1-based chapter index. -/
def chaptersFor (config : Config) (llm : Option Backend) :
    Nat → List String → Except Unit (List String)
  | _, [] => Except.ok []
  | i, title :: rest =>
    let chapter_heading := "# Chapter " ++ toString i ++ ": " ++ title
    match (match llm with
           | some client =>
             match cfgRender config "topic" with
             | Except.error e => Except.error e
             | Except.ok topic =>
               let clen := match config "chapter_length" with
                           | some v => v.render
                           | none => "2000"
               match client ("Write Chapter " ++ toString i ++ " titled '" ++ title ++
                   "' for the eBook on '" ++ topic ++ "'. Target length ~" ++ clen ++
                   " words. Use clear subheadings and actionable takeaways.") with
               | Except.error e => Except.error e
               | Except.ok text =>
                 Except.ok (if text ≠ "" then chapter_heading ++ "\n\n" ++ pyStrip text
                            else chapter_heading ++ "\n\n(Empty)")
           | none => Except.ok (chapter_heading ++ "\n\nContent for " ++ title ++ "...")) with
    | Except.error e => Except.error e
    | Except.ok chap =>
      match chaptersFor config llm (i + 1) rest with
      | Except.error e => Except.error e
      | Except.ok restCh => Except.ok (chap :: restCh)

/-- `stage_4_chapters(config, queries, llm_client)`: re-derive the titles
from the persisted stage-2 outline (`outlineFile` holds the file contents
when the file exists), fall back to `num_chapters` synthetic titles, then
write each chapter. -/
def stage_4_chapters (config : Config) (_queries : List String)
    (outlineFile : Option String) (llm_client : Option Backend) :
    Except Unit (List String) :=
  let outline_text := outlineFile.getD ""
  let titles0 := if outline_text ≠ "" then extract_chapter_titles outline_text else []
  match (if titles0.isEmpty then
           (match config "num_chapters" with
            | some (.int n) =>
              Except.ok ((List.range n.toNat).map fun i => "Chapter " ++ toString (i + 1))
            | none =>
              Except.ok ((List.range 5).map fun i => "Chapter " ++ toString (i + 1))
            | some (.str _) => Except.error ())
         else Except.ok titles0) with
  | Except.error e => Except.error e
  | Except.ok titles => chaptersFor config llm_client 1 titles

/-- `stage_5_optimize(chapters, llm_client)`: the identity pass. -/
def stage_5_optimize (chapters : List String) (_llm_client : Option Backend) :
    List String := chapters

/-- `stage_6_cover(config, first_chapter, llm_client)`. -/
def stage_6_cover (config : Config) (_first_chapter : String)
    (_llm_client : Option Backend) : Except Unit String :=
  match cfgRender config "topic" with
  | Except.error e => Except.error e
  | Except.ok t =>
    Except.ok ("Ultra-realistic, cinematic eBook cover for '" ++ t ++
      "', emotional and transformative visual metaphor, high-resolution, A4 format.")

/-- A stage-7 record `{chapter, title, type, description}`. -/
structure InteractiveElem where
  chapter : Nat
  title : String
  type : String
  description : String
deriving DecidableEq, Repr

/-- A stage-8/9 record `{chapter, prompt}`. -/
structure ChapterPrompt where
  chapter : Nat
  prompt : String
deriving DecidableEq, Repr

/-- `stage_7_interactive(chapters, llm_client)`: one fixed tracker record
per chapter. -/
def stage_7_interactive (chapters : List String) (_llm_client : Option Backend) :
    List InteractiveElem :=
  (List.range chapters.length).map fun i =>
    { chapter := i + 1
      title := "Progress Tracker - Chapter " ++ toString (i + 1)
      type := "Printable Tracker"
      description := "Track your progress" }

/-- `stage_8_diagrams(chapters, llm_client)`. -/
def stage_8_diagrams (chapters : List String) (_llm_client : Option Backend) :
    List ChapterPrompt :=
  (List.range chapters.length).map fun i =>
    { chapter := i + 1
      prompt := "3D isometric diagram showing key concepts, calming pastel tones, high-resolution" }

/-- `stage_9_backgrounds(chapters, llm_client)`. -/
def stage_9_backgrounds (chapters : List String) (_llm_client : Option Backend) :
    List ChapterPrompt :=
  (List.range chapters.length).map fun i =>
    { chapter := i + 1
      prompt := "Fitness transformation themed background, dynamic gradients, ultra-realistic" }

/-! ## Compiler (`write_section_with_stream` lines 604-620,
`compile_ebook` lines 623-693) -/

/-- `write_section_with_stream(title, body_prompt, llm_client)`: without a
client, echo the prompt as the body; with one, stream (here: generate) the
body and strip it. -/
def write_section_with_stream (title body_prompt : String)
    (llm_client : Option Backend) : Except Unit String :=
  match llm_client with
  | none => Except.ok ("# " ++ title ++ "\n\n" ++ body_prompt ++ "\n")
  | some client =>
    match client body_prompt with
    | Except.error e => Except.error e
    | Except.ok text => Except.ok ("# " ++ title ++ "\n\n" ++ pyStrip text ++ "\n")

/-- Python `bool(a) and bool(b)` over two `config.get` results. -/
def bothTruthy : Option ConfigVal → Option ConfigVal → Bool
  | some a, some b => a.truthy && b.truthy
  | _, _ => false

/-- The f-string rendering of a `config.get` result (absent keys render as
`None`; unreachable under the truthiness guard). -/
def renderOpt : Option ConfigVal → String
  | some v => v.render
  | none => "None"

/-- The optional streamed intro section of the compiler: whole section
(including its trailing rule) or empty.  Presence is decided by the
truthiness of both bounds; a missing backend is replaced by the mock
client at the call. -/
def introSectionText (c : Config) (llm : Option Backend) : Except Unit String :=
  if bothTruthy (c "intro_min_words") (c "intro_max_words") then
    match cfgRender c "topic" with
    | Except.error e => Except.error e
    | Except.ok topic =>
      match write_section_with_stream "Introduction"
          ("Write an introductory section for the eBook on '" ++ topic ++
           "'. Target length " ++ renderOpt (c "intro_min_words") ++ "-" ++
           renderOpt (c "intro_max_words") ++ " words.")
          (some (llm.getD mockBackend)) with
      | Except.error e => Except.error e
      | Except.ok s => Except.ok (s ++ "\n---\n\n")
  else Except.ok ""

/-- The optional streamed final-thoughts section of the compiler. -/
def finalSectionText (c : Config) (llm : Option Backend) : Except Unit String :=
  if bothTruthy (c "final_min_words") (c "final_max_words") then
    match cfgRender c "topic" with
    | Except.error e => Except.error e
    | Except.ok topic =>
      match write_section_with_stream "Final Thoughts"
          ("Write final thoughts for the eBook on '" ++ topic ++
           "'. Target length " ++ renderOpt (c "final_min_words") ++ "-" ++
           renderOpt (c "final_max_words") ++ " words.")
          (some (llm.getD mockBackend)) with
      | Except.error e => Except.error e
      | Except.ok s => Except.ok (s ++ "\n---\n\n")
  else Except.ok ""

/-- The optional streamed review-request section of the compiler. -/
def reviewSectionText (c : Config) (llm : Option Backend) : Except Unit String :=
  if bothTruthy (c "review_min_words") (c "review_max_words") then
    match write_section_with_stream "We'd Love Your Review"
        ("Write a short call-to-action asking readers to leave a review for the eBook. Target length " ++
         renderOpt (c "review_min_words") ++ "-" ++
         renderOpt (c "review_max_words") ++ " words.")
        (some (llm.getD mockBackend)) with
    | Except.error e => Except.error e
    | Except.ok s => Except.ok (s ++ "\n---\n\n")
  else Except.ok ""

/-- The chapter block of the final document: each chapter followed by a
blank line, a horizontal rule between chapters, none after the last. -/
def chaptersSection : List String → String
  | [] => ""
  | [c] => c ++ "\n\n"
  | c :: c2 :: rest => c ++ "\n\n" ++ "---\n\n" ++ chaptersSection (c2 :: rest)

/-- One appendix sub-block per interactive-element record (the `.get`
defaults of the Python side are dead: every record carries all fields). -/
def elemBlock (e : InteractiveElem) : String :=
  "## " ++ e.title ++ "\n" ++ "Type: " ++ e.type ++ "\n" ++ e.description ++ "\n\n"

/-- The appendix of the final document. -/
def appendixSection (elems : List InteractiveElem) : String :=
  "\n\n---\n\n# Appendix: Interactive Tools\n\n" ++ joinAll (elems.map elemBlock)

/-- The stage outputs collected by `execute_pipeline` in its `results`
dictionary (each persisted to disk as produced). -/
structure PipelineResults where
  config : Config
  queries : List String
  outline : String
  toc : String
  chapters : List String
  optimized_chapters : List String
  cover_prompt : String
  interactive_elements : List InteractiveElem
  diagram_prompts : List ChapterPrompt
  background_prompts : List ChapterPrompt

/-- `compile_ebook(results, output_dir, llm_client=None)`: the final
document as the concatenation of the writes to `FINAL_EBOOK.md`.  In the
pipeline the results dictionary always carries every stage key, so the
`in`-guards of the Python side always pass. -/
def compile_ebook (results : PipelineResults) (llm_client : Option Backend) :
    Except Unit String :=
  match cfgStr results.config "topic" with
  | Except.error e => Except.error e
  | Except.ok topic =>
  match cfgRender results.config "target_audience" with
  | Except.error e => Except.error e
  | Except.ok audience =>
  match introSectionText results.config llm_client with
  | Except.error e => Except.error e
  | Except.ok intro =>
  match finalSectionText results.config llm_client with
  | Except.error e => Except.error e
  | Except.ok fin =>
  match reviewSectionText results.config llm_client with
  | Except.error e => Except.error e
  | Except.ok rev =>
    Except.ok ("# " ++ pyTitle topic ++ "\n\n" ++
      "*An eBook for " ++ audience ++ "*\n\n" ++
      "---\n\n" ++
      intro ++
      (results.toc ++ "\n\n---\n\n") ++
      chaptersSection results.optimized_chapters ++
      fin ++
      rev ++
      appendixSection results.interactive_elements)

/-! ## Pipeline (`execute_pipeline`, lines 302-400) -/

/-- Stages 1-9 in order, persisting each output; stage 4 reads back the
stage-2 artifact, which holds exactly the outline string that stage 2
produced. -/
def pipelineResults (config : Config) (llm_client : Option Backend) :
    Except Unit PipelineResults :=
  match stage_1_seo_queries config llm_client with
  | Except.error e => Except.error e
  | Except.ok queries =>
  match stage_2_outline config queries llm_client with
  | Except.error e => Except.error e
  | Except.ok outline =>
  let toc := stage_3_toc outline llm_client
  match stage_4_chapters config queries (some outline) llm_client with
  | Except.error e => Except.error e
  | Except.ok chapters =>
  let optimized := stage_5_optimize chapters llm_client
  match (match optimized with
         | [] => Except.error ()
         | c :: _ => Except.ok c : Except Unit String) with
  | Except.error e => Except.error e
  | Except.ok first =>
  match stage_6_cover config first llm_client with
  | Except.error e => Except.error e
  | Except.ok cover =>
    Except.ok
      { config := config
        queries := queries
        outline := outline
        toc := toc
        chapters := chapters
        optimized_chapters := optimized
        cover_prompt := cover
        interactive_elements := stage_7_interactive optimized llm_client
        diagram_prompts := stage_8_diagrams optimized llm_client
        background_prompts := stage_9_backgrounds optimized llm_client }

/-- `execute_pipeline(config, output_dir, llm_client)`: run the nine
stages, then compile.  The Python call `compile_ebook(results, output_dir)`
passes no backend, so the compiler runs with `llm_client=None`. -/
def execute_pipeline (config : Config) (llm_client : Option Backend) :
    Except Unit (PipelineResults × String) :=
  match pipelineResults config llm_client with
  | Except.error e => Except.error e
  | Except.ok res =>
    match compile_ebook res none with
    | Except.error e => Except.error e
    | Except.ok ebook => Except.ok (res, ebook)

/-! ## Concrete scenarios -/

/-- A trivial stand-in for the YAML library (never consulted on the
backend-less paths exercised below). -/
def yamlStub : String → Except Unit YamlVal := fun _ => Except.ok YamlVal.other

/-- A backend whose `generate` call raises. -/
def failingBackend : Backend := fun _ => Except.error ()

/-- A backend returning six non-blank lines. -/
def sixLineBackend : Backend := fun _ => Except.ok "a\nb\nc\nd\ne\nf"

/-- The heuristic configuration for the topic `"weight loss"` after
post-processing (no beginner keyword, main keyword `"weight"`). -/
def wlConfig : Config :=
  postProcessConfig (mkDefaultConfig "weight loss" "weight" false)

/-- The builder's output for the end-to-end scenario topic
`"weight loss for beginners"` with no backend. -/
def c1_base : Config :=
  postProcessConfig (mkDefaultConfig "weight loss for beginners" "weight" true)

/-- The scenario configuration: `standard` template applied on top. -/
def c1_config : Config := apply_template_defaults c1_base "standard"

/-- The fallback outline stage 2 produces for the scenario topic. -/
def c1_outline : String :=
  "# Weight Loss For Beginners\n\n## Outline\n\n- Chapter 1\n- Chapter 2\n- Chapter 3\n- Chapter 4\n- Chapter 5"

/-- The end-to-end scenario run: no backend, `standard` template. -/
def c1_run : Except Unit (PipelineResults × String) := execute_pipeline c1_config none

/-- Placeholder results record (used only for the impossible error case of
the scenario runs). -/
def emptyResults : PipelineResults :=
  { config := emptyConfig, queries := [], outline := "", toc := "", chapters := []
    optimized_chapters := [], cover_prompt := "", interactive_elements := []
    diagram_prompts := [], background_prompts := [] }

/-- The stage results of the end-to-end scenario. -/
def c1_res : PipelineResults :=
  match c1_run with
  | Except.ok (r, _) => r
  | Except.error _ => emptyResults

/-- The compiled final document of the end-to-end scenario. -/
def c1_doc : String :=
  match c1_run with
  | Except.ok (_, d) => d
  | Except.error _ => ""

/-- Lines that look like numbered table-of-contents entries
`<digits>. <text>` (the shape `f"{i}. {title}"` stage 3 emits). -/
def numberedLine (s : String) : Bool :=
  let ds := s.data.takeWhile Char.isDigit
  !ds.isEmpty && leadsL ['.', ' '] (s.data.dropWhile Char.isDigit)

/-- Number of numbered entries among the lines of a document. -/
def numberedLineCount (s : String) : Nat :=
  ((pySplitlines s).filter numberedLine).length

/-- The pipeline run for the `"weight loss"` heuristic configuration
without template application (no word bounds, so the compiler emits no
optional sections). -/
def wlRun : Except Unit (PipelineResults × String) := execute_pipeline wlConfig none

/-- The stage results of the `wlConfig` run. -/
def wlRes : PipelineResults :=
  match wlRun with
  | Except.ok (r, _) => r
  | Except.error _ => emptyResults

/-- The final document of the `wlConfig` run. -/
def wlDoc : String :=
  match wlRun with
  | Except.ok (_, d) => d
  | Except.error _ => ""

/-- A configuration whose intro lower bound is the integer zero. -/
def zeroIntroConfig : Config := setKey emptyConfig "intro_min_words" (ConfigVal.int 0)

/-! ## Extractor lemmas -/

theorem strIn_append (x : String) (a b : List String) :
    strIn x (a ++ b) = (strIn x a || strIn x b) := by
  induction a with
  | nil => simp [strIn]
  | cons u us ih =>
    by_cases h : x = u <;> simp [strIn, h, ih]

theorem extractAux_cons_none {l : String} (acc ls : List String)
    (h : lineTitle l = none) : extractAux acc (l :: ls) = extractAux acc ls := by
  simp [extractAux, h]

theorem extractAux_cons_new {l t : String} (acc ls : List String)
    (h : lineTitle l = some t) (hs : strIn t acc = false) :
    extractAux acc (l :: ls) = extractAux (acc ++ [t]) ls := by
  simp [extractAux, h, hs]

theorem extractAux_all_none (ls : List String) (acc : List String)
    (h : ∀ l ∈ ls, lineTitle l = none) : extractAux acc ls = acc := by
  induction ls with
  | nil => rfl
  | cons l ls ih =>
    rw [extractAux_cons_none acc ls (h l (by simp))]
    exact ih fun x hx => h x (by simp [hx])

theorem extractAux_skip (ls rest acc : List String)
    (h : ∀ l ∈ ls, lineTitle l = none) :
    extractAux acc (ls ++ rest) = extractAux acc rest := by
  induction ls with
  | nil => rfl
  | cons l ls ih =>
    rw [List.cons_append, extractAux_cons_none acc _ (h l (by simp))]
    exact ih fun x hx => h x (by simp [hx])

theorem extractAux_dedupSeen (ls : List String) : ∀ acc : List String,
    extractAux acc ls = acc ++ dedupSeen acc (ls.filterMap lineTitle) := by
  induction ls with
  | nil => intro acc; simp [extractAux, dedupSeen]
  | cons l ls ih =>
    intro acc
    cases h : lineTitle l with
    | none =>
      rw [extractAux_cons_none acc ls h]
      simp [List.filterMap_cons, h, ih]
    | some t =>
      cases hs : strIn t acc with
      | true =>
        simp only [extractAux, h, hs, List.filterMap_cons, dedupSeen, if_pos]
        exact ih acc
      | false =>
        rw [extractAux_cons_new acc ls h hs]
        simp only [List.filterMap_cons, h, dedupSeen, hs]
        rw [ih (acc ++ [t])]
        simp

theorem dedupSeen_unseen (l : List String) : ∀ (seen : List String) (x : String),
    x ∈ dedupSeen seen l → strIn x seen = false := by
  induction l with
  | nil => intro seen x hx; simp [dedupSeen] at hx
  | cons t ts ih =>
    intro seen x hx
    by_cases hs : strIn t seen = true
    · rw [dedupSeen, if_pos hs] at hx
      exact ih seen x hx
    · rw [dedupSeen, if_neg hs] at hx
      rcases List.mem_cons.mp hx with rfl | hx
      · exact Bool.eq_false_iff.mpr hs
      · have := ih (seen ++ [t]) x hx
        rw [strIn_append] at this
        exact (Bool.or_eq_false_iff.mp this).1

theorem dedupSeen_nodup (l : List String) : ∀ seen : List String,
    (dedupSeen seen l).Nodup := by
  induction l with
  | nil => intro seen; simp [dedupSeen]
  | cons t ts ih =>
    intro seen
    by_cases hs : strIn t seen = true
    · rw [dedupSeen, if_pos hs]; exact ih seen
    · rw [dedupSeen, if_neg hs]
      refine List.nodup_cons.mpr ⟨fun hmem => ?_, ih (seen ++ [t])⟩
      have := dedupSeen_unseen ts (seen ++ [t]) t hmem
      rw [strIn_append] at this
      have ht : strIn t [t] = true := by simp [strIn]
      simp [ht] at this

/-! ## Claim theorems for the heading extractor -/

/-- C2: any outline whose lines consist of `"## Chapter 1 – Alpha"`,
`"### Chapter 2 - Beta"` and `"- Chapter 3 – Gamma"` in that order,
surrounded by lines contributing no title, extracts exactly
`["Alpha", "Beta", "Gamma"]`: the markdown-heading, plain-hyphen and
bullet/en-dash variants are all recognised. -/
theorem extractor_recognizes_three_variants
    (s : String) (pre mid1 mid2 post : List String)
    (hsplit : pySplitlines s =
      pre ++ "## Chapter 1 – Alpha" ::
        (mid1 ++ "### Chapter 2 - Beta" :: (mid2 ++ "- Chapter 3 – Gamma" :: post)))
    (hpre : ∀ l ∈ pre, lineTitle l = none)
    (hmid1 : ∀ l ∈ mid1, lineTitle l = none)
    (hmid2 : ∀ l ∈ mid2, lineTitle l = none)
    (hpost : ∀ l ∈ post, lineTitle l = none) :
    extract_chapter_titles s = ["Alpha", "Beta", "Gamma"] := by
  unfold extract_chapter_titles
  rw [hsplit]
  rw [extractAux_skip pre _ _ hpre]
  rw [extractAux_cons_new _ _ (by decide : lineTitle "## Chapter 1 – Alpha" = some "Alpha") (by decide)]
  rw [extractAux_skip mid1 _ _ hmid1]
  rw [extractAux_cons_new _ _ (by decide : lineTitle "### Chapter 2 - Beta" = some "Beta") (by decide)]
  rw [extractAux_skip mid2 _ _ hmid2]
  rw [extractAux_cons_new _ _ (by decide : lineTitle "- Chapter 3 – Gamma" = some "Gamma") (by decide)]
  rw [extractAux_all_none post _ hpost]
  rfl

/-- C3: the extractor's output is the first-occurrence de-duplication
(exact, case-sensitive string comparison) of the titles its matching lines
produce, hence contains no duplicates; in particular an outline repeating
`"Chapter 1 - X"` yields the single entry `["X"]`. -/
theorem extractor_dedup_first_occurrence (outline : String) :
    extract_chapter_titles outline =
      dedupSeen [] ((pySplitlines outline).filterMap lineTitle)
    ∧ (extract_chapter_titles outline).Nodup
    ∧ extract_chapter_titles "Chapter 1 - X\nChapter 1 - X" = ["X"] := by
  have hchar : extract_chapter_titles outline =
      dedupSeen [] ((pySplitlines outline).filterMap lineTitle) := by
    unfold extract_chapter_titles
    simpa using extractAux_dedupSeen (pySplitlines outline) []
  exact ⟨hchar, hchar ▸ dedupSeen_nodup _ [], by decide⟩

/-- C4: a line matching the chapter pattern whose cleaned title starts with
`<digits>.<digits>` contributes nothing; in particular
`"## Chapter 1 - 1.1 Sub point"` is excluded. -/
theorem extractor_subnumbering_guard :
    (∀ raw g2 : String, chapterMatch (normDash (pyStrip raw)) = some g2 →
       startsSubNum (pyStrip (rstripDot (pyStrip g2))) = true →
       lineTitle raw = none)
    ∧ extract_chapter_titles "## Chapter 1 - 1.1 Sub point" = [] := by
  constructor
  · intro raw g2 hm hs
    unfold lineTitle
    by_cases h0 : pyStrip raw = ""
    · simp [h0]
    · simp [h0, hm, hs]
  · decide

/-- C5: the extractor is a pure function — identical inputs give identical
outputs — and an input none of whose lines contributes a title yields the
empty list (no failure). -/
theorem extractor_deterministic_total (s : String) :
    extract_chapter_titles s = extract_chapter_titles s
    ∧ ((∀ l ∈ pySplitlines s, lineTitle l = none) → extract_chapter_titles s = []) := by
  refine ⟨rfl, fun h => ?_⟩
  unfold extract_chapter_titles
  exact extractAux_all_none _ _ h

/-! ## Claim theorems for the configuration builder and template applier -/

/-- C6 counterexample: the builder does propagate failures — the backend's
`generate` call sits outside the try/except, and a non-empty all-whitespace
topic makes the heuristic default path raise `IndexError`. -/
theorem config_builder_propagates_failure :
    generate_config_from_topic yamlStub "weight loss" (some failingBackend) = Except.error ()
    ∧ generate_config_from_topic yamlStub "   " none = Except.error () :=
  ⟨rfl, rfl⟩

/-- C6 amended: the builder returns a valid configuration whenever the
backend's `generate` call itself returns a reply (or there is no backend)
and the topic is empty or contains a non-whitespace token; every parse
failure of the reply degrades to the heuristic defaults instead of
raising. -/
theorem config_builder_amended
    (safe_load : String → Except Unit YamlVal) (topic : String) (llm : Option Backend)
    (hgen : ∀ client, llm = some client → ∃ r, client (configPrompt topic) = Except.ok r)
    (htopic : topic = "" ∨ pySplit topic ≠ []) :
    ∃ c, generate_config_from_topic safe_load topic llm = Except.ok c := by
  have hdef : ∃ dc, generate_default_config topic = Except.ok dc := by
    unfold generate_default_config
    by_cases h0 : topic = ""
    · subst h0; exact ⟨_, rfl⟩
    · rcases htopic with h | h
      · exact absurd h h0
      · cases hp : pySplit topic with
        | nil => exact absurd hp h
        | cons w ws =>
          refine ⟨mkDefaultConfig topic w
            (strContains (pyLower topic) "beginner" || strContains (pyLower topic) "start"), ?_⟩
          simp [h0]
  rcases hdef with ⟨dc, hdc⟩
  cases llm with
  | none =>
    refine ⟨postProcessConfig dc, ?_⟩
    unfold generate_config_from_topic
    rw [hdc]
  | some client =>
    rcases hgen client rfl with ⟨r, hr⟩
    cases hsl : safe_load (extractYamlBlock r) with
    | error e =>
      refine ⟨postProcessConfig dc, ?_⟩
      unfold generate_config_from_topic
      simp [hr, hsl, hdc]
    | ok v =>
      cases v with
      | dict cc =>
        refine ⟨postProcessConfig cc, ?_⟩
        unfold generate_config_from_topic
        simp [hr, hsl]
      | other =>
        refine ⟨postProcessConfig dc, ?_⟩
        unfold generate_config_from_topic
        simp [hr, hsl, hdc]

/-- C7: whenever the builder returns a configuration — for any topic, any
YAML parser behaviour and any backend reply (or no backend) — that
configuration carries `min_search_results = 12000000` and
`num_chapters = 5`, overriding any backend-suggested values. -/
theorem config_builder_forces_constants
    (safe_load : String → Except Unit YamlVal) (topic : String)
    (llm : Option Backend) (c : Config)
    (h : generate_config_from_topic safe_load topic llm = Except.ok c) :
    c "min_search_results" = some (ConfigVal.int 12000000)
    ∧ c "num_chapters" = some (ConfigVal.int 5) := by
  have hfin : ∀ x : Except Unit Config,
      (match x with
       | Except.error e => (Except.error e : Except Unit Config)
       | Except.ok config => Except.ok (postProcessConfig config)) = Except.ok c →
      c "min_search_results" = some (ConfigVal.int 12000000)
      ∧ c "num_chapters" = some (ConfigVal.int 5) := by
    intro x hx
    cases x with
    | error e => exact Except.noConfusion hx
    | ok cfg =>
      simp only [Except.ok.injEq] at hx
      subst hx
      exact ⟨rfl, rfl⟩
  unfold generate_config_from_topic at h
  cases llm with
  | none => exact hfin _ h
  | some client =>
    have h' : (match client (configPrompt topic) with
               | Except.error e => (Except.error e : Except Unit Config)
               | Except.ok config_yaml =>
                 match (match safe_load (extractYamlBlock config_yaml) with
                        | Except.ok (YamlVal.dict cc) => Except.ok cc
                        | _ => generate_default_config topic) with
                 | Except.error e => Except.error e
                 | Except.ok config => Except.ok (postProcessConfig config)) =
        Except.ok c := h
    cases hcl : client (configPrompt topic) with
    | error e => rw [hcl] at h'; exact Except.noConfusion h'
    | ok reply => rw [hcl] at h'; exact hfin _ h'

/-- C8: the `quickstart` template forces 3 chapters of 800 words and the
300-500 / 300-500 / 150-250 section bounds (so each minimum is at most the
corresponding maximum), and an unknown template name returns the
configuration unmodified. -/
theorem template_quickstart_and_unknown (config : Config) (t : String) :
    ((apply_template_defaults config "quickstart") "num_chapters" = some (ConfigVal.int 3)
     ∧ (apply_template_defaults config "quickstart") "chapter_length" = some (ConfigVal.int 800)
     ∧ (apply_template_defaults config "quickstart") "intro_min_words" = some (ConfigVal.int 300)
     ∧ (apply_template_defaults config "quickstart") "intro_max_words" = some (ConfigVal.int 500)
     ∧ (apply_template_defaults config "quickstart") "final_min_words" = some (ConfigVal.int 300)
     ∧ (apply_template_defaults config "quickstart") "final_max_words" = some (ConfigVal.int 500)
     ∧ (apply_template_defaults config "quickstart") "review_min_words" = some (ConfigVal.int 150)
     ∧ (apply_template_defaults config "quickstart") "review_max_words" = some (ConfigVal.int 250)
     ∧ (300 : Int) ≤ 500 ∧ (150 : Int) ≤ 250)
    ∧ (t ≠ "standard" → t ≠ "quickstart" → t ≠ "deepdive" →
        apply_template_defaults config t = config) := by
  constructor
  · exact ⟨rfl, rfl, rfl, rfl, rfl, rfl, rfl, rfl, by decide, by decide⟩
  · intro h1 h2 h3
    unfold apply_template_defaults
    rw [if_neg h1, if_neg h2, if_neg h3]

/-! ## Compiler and pipeline lemmas -/

theorem pipeline_compile_eq (config : Config) (llm : Option Backend)
    (res : PipelineResults) (doc : String)
    (h : execute_pipeline config llm = Except.ok (res, doc)) :
    compile_ebook res none = Except.ok doc := by
  unfold execute_pipeline at h
  cases hp : pipelineResults config llm with
  | error e => rw [hp] at h; exact Except.noConfusion h
  | ok r =>
    have h' : (match compile_ebook r none with
               | Except.error e => (Except.error e : Except Unit (PipelineResults × String))
               | Except.ok ebook => Except.ok (r, ebook)) = Except.ok (res, doc) := by
      rw [hp] at h; exact h
    cases hcomp : compile_ebook r none with
    | error e => rw [hcomp] at h'; exact Except.noConfusion h'
    | ok d =>
      rw [hcomp] at h'
      simp only [Except.ok.injEq, Prod.mk.injEq] at h'
      obtain ⟨rfl, rfl⟩ := h'
      exact hcomp

theorem compile_ebook_shape (r : PipelineResults) (llm : Option Backend) (doc : String)
    (h : compile_ebook r llm = Except.ok doc) :
    ∃ topic audience intro fin rev,
      doc = "# " ++ pyTitle topic ++ "\n\n" ++
        "*An eBook for " ++ audience ++ "*\n\n" ++
        "---\n\n" ++
        intro ++
        (r.toc ++ "\n\n---\n\n") ++
        chaptersSection r.optimized_chapters ++
        fin ++
        rev ++
        appendixSection r.interactive_elements := by
  unfold compile_ebook at h
  cases h1 : cfgStr r.config "topic" with
  | error e => rw [h1] at h; exact Except.noConfusion h
  | ok topic =>
    rw [h1] at h
    cases h2 : cfgRender r.config "target_audience" with
    | error e => rw [h2] at h; exact Except.noConfusion h
    | ok audience =>
      rw [h2] at h
      cases h3 : introSectionText r.config llm with
      | error e => rw [h3] at h; exact Except.noConfusion h
      | ok intro =>
        rw [h3] at h
        cases h4 : finalSectionText r.config llm with
        | error e => rw [h4] at h; exact Except.noConfusion h
        | ok fin =>
          rw [h4] at h
          cases h5 : reviewSectionText r.config llm with
          | error e => rw [h5] at h; exact Except.noConfusion h
          | ok rev =>
            rw [h5] at h
            have h' : Except.ok ("# " ++ pyTitle topic ++ "\n\n" ++
                "*An eBook for " ++ audience ++ "*\n\n" ++
                "---\n\n" ++
                intro ++
                (r.toc ++ "\n\n---\n\n") ++
                chaptersSection r.optimized_chapters ++
                fin ++
                rev ++
                appendixSection r.interactive_elements) = Except.ok doc := h
            simp only [Except.ok.injEq] at h'
            exact ⟨topic, audience, intro, fin, rev, h'.symm⟩

/-! ## Claim theorems for stage 1, the compiler and the pipeline -/

/-- C9: with a backend whose reply cleans (split on line breaks, trim, drop
blanks) to at least five entries, stage 1 returns exactly the first five of
them — truncating, never padding — and with no backend it returns exactly
the five templated queries derived from `main_keyword`. -/
theorem stage1_exactly_five
    (config : Config) (client : Backend) (p resp kw : String)
    (hp : stage_1_prompt config = Except.ok p)
    (hr : client p = Except.ok resp)
    (hkw : config "main_keyword" = some (ConfigVal.str kw)) :
    stage_1_seo_queries config (some client) = Except.ok ((stage1Clean resp).take 5)
    ∧ (5 ≤ (stage1Clean resp).length → ((stage1Clean resp).take 5).length = 5)
    ∧ stage_1_seo_queries config none =
        Except.ok [kw, kw ++ " guide", kw ++ " tips", "how to " ++ kw,
                   kw ++ " for beginners"] := by
  refine ⟨?_, ?_, ?_⟩
  · simp [stage_1_seo_queries, hp, hr]
  · intro h5
    rw [List.length_take]
    exact Nat.min_eq_left h5
  · simp [stage_1_seo_queries, hp, cfgStr, hkw]

/-- C10: whenever the pipeline succeeds, its final document is exactly what
the compiler produces with no backend of its own (the pipeline forwards
none), which coincides with the document built with the mock substitute as
backend — so the optional intro, final-thoughts and review sections always
come from the deterministic mock; and a word bound equal to the integer
zero suppresses the corresponding optional section, because presence is
tested by truthiness. -/
theorem compiler_uses_mock_substitute
    (config : Config) (llm : Option Backend) (res : PipelineResults) (doc : String)
    (h : execute_pipeline config llm = Except.ok (res, doc)) :
    compile_ebook res none = Except.ok doc
    ∧ compile_ebook res (some mockBackend) = Except.ok doc
    ∧ (∀ (c : Config) (l : Option Backend),
         (c "intro_min_words" = some (ConfigVal.int 0)
          ∨ c "intro_max_words" = some (ConfigVal.int 0)) →
         introSectionText c l = Except.ok "")
    ∧ (∀ (c : Config) (l : Option Backend),
         (c "final_min_words" = some (ConfigVal.int 0)
          ∨ c "final_max_words" = some (ConfigVal.int 0)) →
         finalSectionText c l = Except.ok "")
    ∧ (∀ (c : Config) (l : Option Backend),
         (c "review_min_words" = some (ConfigVal.int 0)
          ∨ c "review_max_words" = some (ConfigVal.int 0)) →
         reviewSectionText c l = Except.ok "") := by
  have hc : compile_ebook res none = Except.ok doc := pipeline_compile_eq config llm res doc h
  have hmock : compile_ebook res (some mockBackend) = compile_ebook res none := rfl
  have hzero : ∀ (x y : Option ConfigVal),
      x = some (ConfigVal.int 0) ∨ y = some (ConfigVal.int 0) → bothTruthy x y = false := by
    intro x y hxy
    rcases hxy with rfl | rfl
    · cases y <;> simp [bothTruthy, ConfigVal.truthy]
    · cases x <;> simp [bothTruthy, ConfigVal.truthy]
  refine ⟨hc, hmock.trans hc, ?_, ?_, ?_⟩
  · intro c l h0
    unfold introSectionText
    rw [hzero _ _ h0]
    rfl
  · intro c l h0
    unfold finalSectionText
    rw [hzero _ _ h0]
    rfl
  · intro c l h0
    unfold reviewSectionText
    rw [hzero _ _ h0]
    rfl

/-! ## Claim theorems for the end-to-end fallback scenario -/

/-- C1 counterexample: in the fallback scenario (topic
`"weight loss for beginners"`, no backend, `standard` template) the
pipeline's table of contents is the fixed placeholder with zero numbered
entries, not a list of five — the fallback outline's bullets
(`- Chapter 1`, …) carry no hyphen-separated title, so the heading
extractor finds nothing and stage 3 emits the placeholder document. -/
theorem c1_toc_placeholder_not_numbered :
    c1_res.outline = c1_outline
    ∧ extract_chapter_titles c1_outline = []
    ∧ c1_res.toc = "# Table of Contents\n\n(Outline parsing found no chapters)\n"
    ∧ numberedLineCount c1_res.toc = 0
    ∧ numberedLineCount c1_res.toc ≠ 5 :=
  ⟨rfl, by decide, rfl, rfl, by decide⟩

/-- C1 amended: in the fallback scenario the compiled final document starts
with the title line derived from the topic and ends with an appendix
holding one interactive-element block per chapter (five chapters, five
blocks); its table of contents, however, is the fixed
`(Outline parsing found no chapters)` placeholder — the five fallback
titles `Chapter 1`..`Chapter 5` are used for the chapter bodies of stage
4, not for the table of contents. -/
theorem c1_end_to_end_amended :
    generate_config_from_topic yamlStub "weight loss for beginners" none = Except.ok c1_base
    ∧ execute_pipeline c1_config none = Except.ok (c1_res, c1_doc)
    ∧ strStarts c1_doc ("# " ++ pyTitle "weight loss for beginners" ++ "\n\n") = true
    ∧ c1_res.toc = "# Table of Contents\n\n(Outline parsing found no chapters)\n"
    ∧ strContains c1_doc "# Table of Contents\n\n(Outline parsing found no chapters)\n" = true
    ∧ c1_res.optimized_chapters.length = 5
    ∧ c1_res.interactive_elements.length = c1_res.optimized_chapters.length
    ∧ ∃ p, c1_doc = p ++ appendixSection c1_res.interactive_elements := by
  refine ⟨rfl, rfl, rfl, rfl, rfl, rfl, rfl, ?_⟩
  obtain ⟨t, a, i, f, v, hdoc⟩ := compile_ebook_shape c1_res none c1_doc
    (pipeline_compile_eq c1_config none c1_res c1_doc rfl)
  exact ⟨_, hdoc⟩

/-! ## Witnesses -/

theorem extractor_recognizes_three_variants_witness :
    extract_chapter_titles
      "## Chapter 1 – Alpha\n### Chapter 2 - Beta\n- Chapter 3 – Gamma" =
      ["Alpha", "Beta", "Gamma"] :=
  extractor_recognizes_three_variants _ [] [] [] [] (by decide)
    (by simp) (by simp) (by simp) (by simp)

theorem extractor_subnumbering_guard_witness :
    chapterMatch (normDash (pyStrip "## Chapter 1 - 1.1 Sub point")) = some "1.1 Sub point"
    ∧ startsSubNum (pyStrip (rstripDot (pyStrip "1.1 Sub point"))) = true
    ∧ lineTitle "## Chapter 1 - 1.1 Sub point" = none :=
  ⟨by decide, by decide,
   extractor_subnumbering_guard.1 "## Chapter 1 - 1.1 Sub point" "1.1 Sub point"
     (by decide) (by decide)⟩

theorem extractor_deterministic_total_witness :
    (∀ l ∈ pySplitlines "no chapters here\njust prose", lineTitle l = none)
    ∧ extract_chapter_titles "no chapters here\njust prose" = [] :=
  ⟨by decide, (extractor_deterministic_total "no chapters here\njust prose").2 (by decide)⟩

theorem config_builder_amended_witness :
    ∃ c, generate_config_from_topic yamlStub "weight loss" none = Except.ok c :=
  config_builder_amended yamlStub "weight loss" none
    (fun _ h => nomatch h) (Or.inr (by decide))

theorem config_builder_forces_constants_witness :
    generate_config_from_topic yamlStub "weight loss" none = Except.ok wlConfig
    ∧ wlConfig "min_search_results" = some (ConfigVal.int 12000000)
    ∧ wlConfig "num_chapters" = some (ConfigVal.int 5) :=
  ⟨rfl, (config_builder_forces_constants yamlStub "weight loss" none wlConfig rfl).1,
   (config_builder_forces_constants yamlStub "weight loss" none wlConfig rfl).2⟩

theorem template_quickstart_and_unknown_witness :
    ("bogus" : String) ≠ "standard"
    ∧ apply_template_defaults emptyConfig "bogus" = emptyConfig
    ∧ (apply_template_defaults emptyConfig "quickstart") "num_chapters" = some (ConfigVal.int 3) :=
  ⟨by decide,
   (template_quickstart_and_unknown emptyConfig "bogus").2 (by decide) (by decide) (by decide),
   (template_quickstart_and_unknown emptyConfig "bogus").1.1⟩

theorem stage1_exactly_five_witness :
    stage_1_seo_queries wlConfig (some sixLineBackend) = Except.ok ["a", "b", "c", "d", "e"]
    ∧ ((stage1Clean "a\nb\nc\nd\ne\nf").take 5).length = 5
    ∧ stage_1_seo_queries wlConfig none =
        Except.ok ["weight", "weight guide", "weight tips", "how to weight",
                   "weight for beginners"] := by
  have h := stage1_exactly_five wlConfig sixLineBackend _ "a\nb\nc\nd\ne\nf" "weight"
    rfl rfl rfl
  exact ⟨by rw [h.1]; rfl, h.2.1 (by decide), h.2.2⟩

theorem compiler_uses_mock_substitute_witness :
    compile_ebook wlRes none = Except.ok wlDoc
    ∧ introSectionText zeroIntroConfig none = Except.ok "" := by
  have h := compiler_uses_mock_substitute wlConfig none wlRes wlDoc rfl
  exact ⟨h.1, h.2.2.1 zeroIntroConfig none (Or.inl rfl)⟩
